import Mathlib

/-!
# Verification of the bloom NIP-46 delegated remote-signing core

Shallow embedding of the session data model, the storage adapters
(`src/shared/api/nip46/storage.ts`), and the reconnection/adoption effects
of `Nip46Provider` (`src/app/context/Nip46Context.tsx`).

Conventions of the embedding:
* JS `number` timestamps are `Int` (so differences such as
  `now - lastSeenAt` behave as in the source).
* Nullable string fields of a `SessionRecord` (`remoteSignerPubkey`,
  `userPubkey`, `lastError`, and the `lastSeenAt` timestamp) are `Option`s;
  the source's truthiness tests on these fields (`session.userPubkey`,
  `!session.lastError`, `session.lastSeenAt != null`) are embedded as
  `isSome` / `isNone`, following the data model in which these fields hold
  a key / fault description or are nil.
* Promise-returning functions are embedded as functions into
  `Except JsError α` (rejection) or `AsyncOutcome α` (where the distinction
  between rejecting and hanging matters); `try`/`catch` is embedded by the
  explicit `tryCatch` combinator.
-/

namespace Bloom

/-- A thrown JS value, as inspected by `isQuotaExceededError`:
whether it is a `DOMException`, its `name`, and its `code`. -/
structure JsError where
  isDomException : Bool
  name : String
  code : Int
deriving DecidableEq, Repr

/-- Record type `SessionRecord` of `src/shared/api/nip46/session`: one per
remote-signer pairing.  Field names follow the consumers in
`Nip46Context.tsx` (`userPubkey`, `remoteSignerPubkey`, ...). -/
structure SessionRecord where
  id : String
  status : String
  remoteSignerPubkey : Option String
  userPubkey : Option String
  localKeyMaterial : String
  lastError : Option String
  lastSeenAt : Option Int
  createdAt : Int
  updatedAt : Int
deriving DecidableEq, Repr

/-- Snapshot type `SessionSnapshot`: the unit of persistence and change broadcast. -/
structure SessionSnapshot where
  sessions : List SessionRecord
  activeSessionId : Option String
deriving DecidableEq, Repr

/-! ## Adoption candidate selection (`Nip46Context.tsx`, adoption effect)

```
const candidate = snapshot.sessions.find(
  session => session.status === "active" && session.userPubkey && !session.lastError,
);
```
-/

/-- The predicate of the `find` callback in the adoption effect. -/
def adoptionQualifies (s : SessionRecord) : Bool :=
  s.status == "active" && s.userPubkey.isSome && s.lastError.isNone

/-- Selection `snapshot.sessions.find(...)`: the first qualifying session in
snapshot order. -/
def adoptionCandidate (snap : SessionSnapshot) : Option SessionRecord :=
  snap.sessions.find? adoptionQualifies

/-- Modelled from the spec: `SessionManager.mutate` is not under `src/`;
per §4.4 it "applies a partial update, bumps `updatedAt`" without
reordering the sessions list.  This is the instance of `mutate` that only
bumps `updatedAt` of the session with the given id. -/
def bumpUpdatedAt (snap : SessionSnapshot) (sid : String) (t : Int) :
    SessionSnapshot :=
  { snap with
    sessions := snap.sessions.map fun s =>
      if s.id == sid then { s with updatedAt := t } else s }

/-! ## Reconnection loop (`Nip46Context.tsx`, reconnect effect)

```
if (session.status !== "active") return;
if (!session.remoteSignerPubkey) return;
if (session.lastError) return;
const shouldReconnect =
  activeAdoptedSessionId === session.id ||
  (session.lastSeenAt != null && now - session.lastSeenAt <= RECONNECT_COOLDOWN_MS);
if (!shouldReconnect) return;
if (reconnectTrackerRef.current.has(session.id)) return;
const lastAttempt = reconnectCooldownRef.current.get(session.id);
if (lastAttempt && now - lastAttempt < RECONNECT_COOLDOWN_MS) return;
reconnectTrackerRef.current.add(session.id);
reconnectCooldownRef.current.set(session.id, now);
void service.connectSession(session.id)
  .catch(... => reconnectTrackerRef.current.delete(session.id))
  .finally(() => reconnectTrackerRef.current.delete(session.id));
```
-/

/-- Constant `RECONNECT_COOLDOWN_MS = 60_000` (also the `lastSeenAt` recency
window). -/
def RECONNECT_COOLDOWN_MS : Int := 60000

/-- JS truthiness of a number, as in the guard `lastAttempt && ...`:
`0` is falsy. -/
def numTruthy (n : Int) : Bool := n != 0

/-- The mutable refs of the reconnect effect: `reconnectTrackerRef` (the
set of session ids with a connect attempt in flight) and
`reconnectCooldownRef` (session id to timestamp of the last attempt). -/
structure ReconnectState where
  inflight : List String
  cooldown : String → Option Int

/-- Initial reconnect state: empty tracker, empty cooldown map. -/
def reconnectInit : ReconnectState :=
  { inflight := [], cooldown := fun _ => none }

/-- The per-session candidacy test of the reconnect effect: the three
early returns plus `shouldReconnect`. -/
def reconnectEligible (adopted : Option String) (now : Int)
    (s : SessionRecord) : Bool :=
  s.status == "active" && s.remoteSignerPubkey.isSome && s.lastError.isNone &&
    (adopted == some s.id ||
      (match s.lastSeenAt with
        | some t => decide (now - t ≤ RECONNECT_COOLDOWN_MS)
        | none => false))

/-- The tracker/cooldown gate: skip when an attempt is in flight, or when
the last attempt (if truthy) is less than `RECONNECT_COOLDOWN_MS` old. -/
def reconnectGate (st : ReconnectState) (now : Int) (sid : String) : Bool :=
  !(st.inflight.contains sid) &&
    (match st.cooldown sid with
      | some last => !(numTruthy last && decide (now - last < RECONNECT_COOLDOWN_MS))
      | none => true)

/-- Issuing one reconnect attempt for one session at time `now`: when the
session is eligible and the gate passes, the id is added to the tracker,
the cooldown map records `now`, and `connectSession` is called (second
component `true`); otherwise nothing happens. -/
def issueReconnect (adopted : Option String) (now : Int)
    (st : ReconnectState) (s : SessionRecord) : ReconnectState × Bool :=
  if reconnectEligible adopted now s && reconnectGate st now s.id then
    ({ inflight := s.id :: st.inflight,
       cooldown := fun k => if k == s.id then some now else st.cooldown k },
      true)
  else (st, false)

/-- Outcome of the asynchronous `connectSession` call. -/
inductive ConnectOutcome
  | success
  | failure
deriving DecidableEq, Repr

/-- Settlement of the attempt: the `.catch` handler (failure) and the
`.finally` handler (both outcomes) only delete the id from the in-flight
tracker; neither outcome touches the cooldown map. -/
def settleReconnect (st : ReconnectState) (sid : String)
    (outcome : ConnectOutcome) : ReconnectState :=
  match outcome with
  | .success => { st with inflight := st.inflight.filter fun k => !(k == sid) }
  | .failure => { st with inflight := st.inflight.filter fun k => !(k == sid) }

/-- A full attempt cycle: issue, then (if an attempt was issued) let the
`connectSession` promise settle with the given outcome. -/
def attemptCycle (adopted : Option String) (now : Int) (st : ReconnectState)
    (s : SessionRecord) (outcome : ConnectOutcome) : ReconnectState × Bool :=
  match issueReconnect adopted now st s with
  | (st1, true) => (settleReconnect st1 s.id outcome, true)
  | (st1, false) => (st1, false)

/-! ## JS values and `try`/`catch` -/

/-- Abstract JS value, as produced by `JSON.parse` and inspected by the
shape checks of `LocalStorageAdapter.load`.  `undefined` is the value of a
missing property. -/
inductive JsValue
  | undefined
  | null
  | bool (b : Bool)
  | num (n : Int)
  | str (s : String)
  | arr (elems : List JsValue)
  | obj (fields : List (String × JsValue))

/-- Truth of `typeof v === "object"`: holds for `null`, arrays and
objects. -/
def jsTypeofObject : JsValue → Bool
  | .null | .arr _ | .obj _ => true
  | _ => false

/-- JS falsiness: `undefined`, `null`, `false`, `0` and the empty string
are falsy. -/
def jsFalsy : JsValue → Bool
  | .undefined | .null => true
  | .bool b => !b
  | .num n => n == 0
  | .str s => s == ""
  | .arr _ => false
  | .obj _ => false

/-- Truth of `Array.isArray(v)`. -/
def jsIsArray : JsValue → Bool
  | .arr _ => true
  | _ => false

/-- Whether the parsed value is a plain object (the claim-level notion
used by the shape check on persisted payloads). -/
def jsIsObject : JsValue → Bool
  | .obj _ => true
  | _ => false

/-- Property access `v[k]`: the first field with the given key, or
`undefined` when absent or when the receiver has no properties. -/
def jsGet (v : JsValue) (k : String) : JsValue :=
  match v with
  | .obj fields =>
      (((fields.find? fun p => p.1 == k).map Prod.snd).getD .undefined)
  | _ => .undefined

/-- Embedding of `try { body } catch (e) { handler(e) }`. -/
def tryCatch {α : Type} (body : Except JsError α)
    (handler : JsError → Except JsError α) : Except JsError α :=
  match body with
  | .ok a => .ok a
  | .error e => handler e

/-- Whether a promise-valued computation resolved (did not reject). -/
def exceptOk {α : Type} : Except JsError α → Bool
  | .ok _ => true
  | .error _ => false

/-! ## JSON round trip of a snapshot (`cloneSnapshot`'s fallback) -/

/-- JSON view of an optional string (`null` when nil). -/
def encodeOptStr : Option String → JsValue
  | Option.none => .null
  | some s => .str s

/-- JSON view of an optional timestamp (`null` when nil). -/
def encodeOptInt : Option Int → JsValue
  | Option.none => .null
  | some n => .num n

/-- Reading back an optional string. -/
def decodeOptStr : JsValue → Option (Option String)
  | .null => some Option.none
  | .str s => some (some s)
  | _ => Option.none

/-- Reading back an optional timestamp. -/
def decodeOptInt : JsValue → Option (Option Int)
  | .null => some Option.none
  | .num n => some (some n)
  | _ => Option.none

/-- Reading back a string. -/
def decodeStr : JsValue → Option String
  | .str s => some s
  | _ => Option.none

/-- Reading back a timestamp. -/
def decodeInt : JsValue → Option Int
  | .num n => some n
  | _ => Option.none

/-- Serialization of a `SessionRecord` as `JSON.stringify` lays it out. -/
def encodeRecord (s : SessionRecord) : JsValue :=
  .obj [("id", .str s.id), ("status", .str s.status),
        ("remoteSignerPubkey", encodeOptStr s.remoteSignerPubkey),
        ("userPubkey", encodeOptStr s.userPubkey),
        ("localKeyMaterial", .str s.localKeyMaterial),
        ("lastError", encodeOptStr s.lastError),
        ("lastSeenAt", encodeOptInt s.lastSeenAt),
        ("createdAt", .num s.createdAt),
        ("updatedAt", .num s.updatedAt)]

/-- Deserialization of a `SessionRecord` from the layout `encodeRecord`
produces. -/
def decodeRecord : JsValue → Option SessionRecord
  | .obj [("id", idv), ("status", stv),
          ("remoteSignerPubkey", rspv), ("userPubkey", upv),
          ("localKeyMaterial", lkmv), ("lastError", lev),
          ("lastSeenAt", lsav), ("createdAt", cav), ("updatedAt", uav)] => do
      let id ← decodeStr idv
      let status ← decodeStr stv
      let rsp ← decodeOptStr rspv
      let up ← decodeOptStr upv
      let lkm ← decodeStr lkmv
      let le ← decodeOptStr lev
      let lsa ← decodeOptInt lsav
      let ca ← decodeInt cav
      let ua ← decodeInt uav
      return ⟨id, status, rsp, up, lkm, le, lsa, ca, ua⟩
  | _ => Option.none

/-- Serialization of a `SessionSnapshot`. -/
def encodeSnapshot (snap : SessionSnapshot) : JsValue :=
  .obj [("sessions", .arr (snap.sessions.map encodeRecord)),
        ("activeSessionId", encodeOptStr snap.activeSessionId)]

/-- Deserialization of a `SessionSnapshot`. -/
def decodeSnapshot : JsValue → Option SessionSnapshot
  | .obj [("sessions", .arr elems), ("activeSessionId", actv)] => do
      let sessions ← elems.mapM decodeRecord
      let act ← decodeOptStr actv
      return ⟨sessions, act⟩
  | _ => Option.none

/-- Function `cloneSnapshot` of storage.ts: `structuredClone` when
available (value identity in this embedding), otherwise
`JSON.parse(JSON.stringify(snapshot))` — the decode of the encode.  The
`getD` default is the empty snapshot; `decodeSnapshot_encodeSnapshot`
shows it is never reached. -/
def cloneSnapshot (s : SessionSnapshot) : SessionSnapshot :=
  (decodeSnapshot (encodeSnapshot s)).getD
    { sessions := [], activeSessionId := Option.none }

/-! ## `MemoryStorageAdapter` -/

/-- Method `MemoryStorageAdapter.save`: stores a clone of the snapshot
(the adapter's state is its `snapshot` field). -/
def memSave (_st : Option SessionSnapshot) (s : SessionSnapshot) :
    Option SessionSnapshot :=
  some (cloneSnapshot s)

/-- Method `MemoryStorageAdapter.load`: a clone of the stored snapshot,
or `null`. -/
def memLoad (st : Option SessionSnapshot) : Option SessionSnapshot :=
  match st with
  | some s => some (cloneSnapshot s)
  | Option.none => Option.none

/-! ## `LocalStorageAdapter`

```
private blocked = false;
private lastBlockedTime = 0;
private readonly RETRY_INTERVAL_MS = 60_000;
```
-/

/-- Predicate `isQuotaExceededError` of storage.ts. -/
def isQuotaExceededError (e : JsError) : Bool :=
  e.isDomException &&
    (e.name == "QuotaExceededError" || e.code == 22 ||
      e.name == "NS_ERROR_DOM_QUOTA_REACHED")

/-- Constant `RETRY_INTERVAL_MS = 60_000`. -/
def RETRY_INTERVAL_MS : Int := 60000

/-- Mutable fields of a `LocalStorageAdapter`. -/
structure LsState where
  blocked : Bool
  lastBlockedTime : Int
deriving DecidableEq, Repr

/-- Result of the underlying `window.localStorage.setItem` call. -/
inductive SetItemResult
  | ok
  | err (e : JsError)
deriving DecidableEq, Repr

/-- Body of the `try` in `LocalStorageAdapter.save`: the write happens
and, on success, a positive `lastBlockedTime` is reset; a thrown
`setItem` error escapes to the `catch`. -/
def lsSaveTryBody (st : LsState) (write : SetItemResult) :
    Except JsError LsState :=
  match write with
  | .ok =>
      .ok { st with
            lastBlockedTime :=
              if st.lastBlockedTime > 0 then 0 else st.lastBlockedTime }
  | .err e => .error e

/-- Handler of the `catch` in `LocalStorageAdapter.save`: a quota error
blocks the adapter and records the time; anything else is only logged. -/
def lsSaveCatch (st : LsState) (now : Int) (e : JsError) :
    Except JsError LsState :=
  if isQuotaExceededError e then
    .ok { blocked := true, lastBlockedTime := now }
  else .ok st

/-- First step of `LocalStorageAdapter.save`: allow retry when enough
time has passed since the last quota error (strictly more than
`RETRY_INTERVAL_MS`). -/
def lsUnblock (st : LsState) (now : Int) : LsState :=
  if st.blocked && decide (now - st.lastBlockedTime > RETRY_INTERVAL_MS)
  then { st with blocked := false } else st

/-- Method `LocalStorageAdapter.save`.  Returns the completion (an
`.error` would be a rejected promise) carrying the new adapter state and
whether the `setItem` write was attempted. -/
def lsSave (windowDefined : Bool) (st : LsState) (now : Int)
    (write : SetItemResult) : Except JsError (LsState × Bool) :=
  if !windowDefined then .ok (st, false)
  else if (lsUnblock st now).blocked then .ok (lsUnblock st now, false)
  else
    (tryCatch (lsSaveTryBody (lsUnblock st now) write)
        (lsSaveCatch (lsUnblock st now) now)).map
      fun st2 => (st2, true)

/-- Method `LocalStorageAdapter.load`: body of the `try`, with the
`getItem` result and the behavior of `JSON.parse` as inputs.  A nil or
empty `raw` is absent; a parsed value that is falsy or not of object type,
or whose `sessions` is not an array, is absent. -/
def lsLoadBody (getItem : Except JsError (Option String))
    (parse : String → Except JsError JsValue) :
    Except JsError (Option JsValue) := do
  let raw ← getItem
  match raw with
  | Option.none => return Option.none
  | some rawStr =>
    if rawStr == "" then return Option.none
    else
      let parsed ← parse rawStr
      if jsFalsy parsed || !jsTypeofObject parsed then return Option.none
      else if !jsIsArray (jsGet parsed "sessions") then return Option.none
      else return some parsed

/-- Method `LocalStorageAdapter.load`: returns `null` outside a browser,
otherwise runs the body under the `catch` that absorbs every failure. -/
def lsLoad (windowDefined : Bool) (getItem : Except JsError (Option String))
    (parse : String → Except JsError JsValue) :
    Except JsError (Option JsValue) :=
  if !windowDefined then .ok Option.none
  else tryCatch (lsLoadBody getItem parse) fun _ => .ok Option.none

/-! ## `IndexedDbStorageAdapter` -/

/-- Stored record shape (`SnapshotRecord`) of the IndexedDB store. -/
structure SnapshotRecord where
  snapshot : SessionSnapshot
  updatedAt : Int
deriving DecidableEq, Repr

/-- Results of the awaited steps inside `IndexedDbStorageAdapter`:
opening the database (`this.initialized` / `withIndexedDb`), the `get`
request, the `put` request and the transaction completion.  Each may
reject. -/
structure IdbEnv where
  openResult : Except JsError Unit
  getResult : Except JsError (Option SnapshotRecord)
  putResult : Except JsError Unit
  txResult : Except JsError Unit

/-- Body of the `try` in `IndexedDbStorageAdapter.load`. -/
def idbLoadBody (env : IdbEnv) : Except JsError (Option SessionSnapshot) := do
  let _ ← env.openResult
  let record ← env.getResult
  let _ ← env.txResult
  match record with
  | Option.none => return Option.none
  | some r => return some (cloneSnapshot r.snapshot)

/-- Method `IndexedDbStorageAdapter.load`: every failure of the body is
absorbed into `null`. -/
def idbLoad (idbDefined : Bool) (env : IdbEnv) :
    Except JsError (Option SessionSnapshot) :=
  if !idbDefined then .ok Option.none
  else tryCatch (idbLoadBody env) fun _ => .ok Option.none

/-- Body of the `try` in `IndexedDbStorageAdapter.save`. -/
def idbSaveBody (env : IdbEnv) : Except JsError Unit := do
  let _ ← env.openResult
  let _ ← env.putResult
  let _ ← env.txResult
  return ()

/-- Method `IndexedDbStorageAdapter.save`: every failure of the body is
absorbed (logged only). -/
def idbSave (idbDefined : Bool) (env : IdbEnv) : Except JsError Unit :=
  if !idbDefined then .ok ()
  else tryCatch (idbSaveBody env) fun _ => .ok ()

/-! ## The placeholder transport (`Nip46Context.tsx`, `missingTransport`)

```
publish: async () => { throw new Error("NIP-46 transport is not configured"); },
subscribe: () => () => undefined,
```
-/

/-- Outcome of an asynchronous operation, distinguishing a rejection from
never settling. -/
inductive AsyncOutcome (α : Type)
  | resolves (a : α)
  | rejects (message : String)
  | hangs
deriving DecidableEq, Repr

/-- Operation `missingTransport.publish`: rejects immediately for every
recipient and envelope. -/
def missingTransportPublish (_recipient : String) (_envelope : String) :
    AsyncOutcome Unit :=
  .rejects "NIP-46 transport is not configured"

/-- Operation `missingTransport.subscribe`: returns normally (never
throws), registers nothing, and its unsubscribe handle is the identity on
any listener registry. -/
def missingTransportSubscribe (_ownPubkey : String)
    (_handler : String → Unit) :
    Except JsError (List String → List String) :=
  .ok fun listeners => listeners

/-! ## Adoption swap (`Nip46Context.tsx`, adoption effect) -/

/-- Externally visible adoption action of one run of the adoption
effect. -/
inductive AdoptAction
  | keep
  | clear
  | adopt (sid : String)
deriving DecidableEq, Repr

/-- One run of the adoption effect (success path of `adoptSigner`), on
the candidate from `adoptionCandidate` and the `activeSessionRef` value:
the new ref value and the action performed.  No candidate clears the
adopted signer when one is set; a candidate equal to the current ref is a
no-op; otherwise the ref moves to the candidate and the new signer is
adopted. -/
def adoptionStep (snap : SessionSnapshot) (current : Option String) :
    Option String × AdoptAction :=
  match adoptionCandidate snap with
  | Option.none =>
    match current with
    | Option.none => (Option.none, .keep)
    | some _ => (Option.none, .clear)
  | some c =>
    if some c.id == current then (current, .keep)
    else (some c.id, .adopt c.id)

/-- Empty snapshot (no sessions). -/
def emptySnap : SessionSnapshot :=
  { sessions := [], activeSessionId := Option.none }

end Bloom

namespace Bloom

/-- Bumping `updatedAt` changes neither qualification nor the id of any
session, so `find?` returns a session with the same id. -/
theorem find?_map_bump (l : List SessionRecord) (sid : String) (t : Int) :
    ((l.map fun s => if s.id == sid then { s with updatedAt := t } else s).find?
        adoptionQualifies).map SessionRecord.id
      = (l.find? adoptionQualifies).map SessionRecord.id := by
  induction l with
  | nil => rfl
  | cons s rest ih =>
    simp only [List.map_cons, List.find?_cons]
    have hq : adoptionQualifies (if s.id == sid then { s with updatedAt := t } else s)
        = adoptionQualifies s := by
      by_cases hid : s.id == sid <;> simp [hid, adoptionQualifies]
    rw [hq]
    cases hqs : adoptionQualifies s with
    | true => by_cases hid : s.id == sid <;> simp [hid]
    | false => exact ih

/-- A `find?` hit is the first match: everything before it fails the
predicate. -/
theorem find?_first {α : Type} (p : α → Bool) :
    ∀ (l : List α) (c : α), l.find? p = some c →
      ∃ l1 l2, l = l1 ++ c :: l2 ∧ ∀ s ∈ l1, p s = false := by
  intro l
  induction l with
  | nil => intro c h; simp [List.find?] at h
  | cons a rest ih =>
    intro c h
    rw [List.find?_cons] at h
    cases hpa : p a with
    | true =>
      rw [hpa] at h
      exact ⟨[], rest, by simpa using (Option.some.inj h).symm ▸ rfl, by simp⟩
    | false =>
      rw [hpa] at h
      obtain ⟨l1, l2, heq, hall⟩ := ih c h
      refine ⟨a :: l1, l2, by simp [heq], ?_⟩
      intro s hs
      rcases List.mem_cons.mp hs with h1 | h2
      · exact h1 ▸ hpa
      · exact hall s h2

/-- Two concrete qualifying sessions for counterexamples: both `active`
with a known `userPubkey` and no `lastError`; `exS2` is more recently
updated than `exS1` but comes second in snapshot order. -/
def exS1 : SessionRecord :=
  { id := "s1", status := "active", remoteSignerPubkey := some "r1",
    userPubkey := some "u1", localKeyMaterial := "k1", lastError := none,
    lastSeenAt := none, createdAt := 0, updatedAt := 1 }

/-- Second concrete session, with the larger `updatedAt`. -/
def exS2 : SessionRecord :=
  { id := "s2", status := "active", remoteSignerPubkey := some "r2",
    userPubkey := some "u2", localKeyMaterial := "k2", lastError := none,
    lastSeenAt := none, createdAt := 0, updatedAt := 2 }

/-- Snapshot holding `exS1` before `exS2`. -/
def exSnap : SessionSnapshot :=
  { sessions := [exS1, exS2], activeSessionId := none }

/-- C1 (counterexample): in `exSnap` both sessions qualify and `exS2` has
the strictly larger `updatedAt`, yet the adoption candidate computed by the
code is `exS1` — the first in list order — not the most-recently-updated
qualifying session. -/
theorem C1_counterexample :
    adoptionQualifies exS1 = true ∧ adoptionQualifies exS2 = true ∧
    exS2 ∈ exSnap.sessions ∧ exS1.updatedAt < exS2.updatedAt ∧
    adoptionCandidate exSnap = some exS1 := by decide

/-- C1 (amended): the adoption candidate is the *first* session in
snapshot list order with status `active`, a non-nil `userPubkey` and nil
`lastError` — it qualifies and every session before it does not — and
`updatedAt` is never consulted: bumping any session's `updatedAt` (the
spec-modelled `mutate` that preserves list order) leaves the candidate's
id unchanged, so a growing `updatedAt` on another qualifying session does
not switch adoption. -/
theorem C1_adoption_is_first_match (snap : SessionSnapshot) (sid : String)
    (t : Int) (c : SessionRecord) (h : adoptionCandidate snap = some c) :
    adoptionQualifies c = true ∧
    (∃ l1 l2, snap.sessions = l1 ++ c :: l2 ∧
      ∀ s ∈ l1, adoptionQualifies s = false) ∧
    (adoptionCandidate (bumpUpdatedAt snap sid t)).map SessionRecord.id
      = (adoptionCandidate snap).map SessionRecord.id :=
  ⟨List.find?_some h, find?_first adoptionQualifies snap.sessions c h,
    find?_map_bump snap.sessions sid t⟩

/-- C1 (witness): `C1_adoption_is_first_match` applied to `exSnap`, with a
bump of `exS2.updatedAt` to 99. -/
theorem C1_adoption_is_first_match_witness :
    adoptionQualifies exS1 = true ∧
    (∃ l1 l2, exSnap.sessions = l1 ++ exS1 :: l2 ∧
      ∀ s ∈ l1, adoptionQualifies s = false) ∧
    (adoptionCandidate (bumpUpdatedAt exSnap "s2" 99)).map SessionRecord.id
      = (adoptionCandidate exSnap).map SessionRecord.id :=
  C1_adoption_is_first_match exSnap "s2" 99 exS1 (by decide)

/-- The second component of `issueReconnect` is exactly the conjunction of
eligibility and the gate. -/
theorem issueReconnect_spec (adopted : Option String) (now : Int)
    (st : ReconnectState) (s : SessionRecord) :
    (issueReconnect adopted now st s).2
      = (reconnectEligible adopted now s && reconnectGate st now s.id) := by
  unfold issueReconnect
  cases h : (reconnectEligible adopted now s && reconnectGate st now s.id) <;>
    simp [h]

/-- The gate is closed while a truthy cooldown entry is less than
`RECONNECT_COOLDOWN_MS` old. -/
theorem reconnectGate_cold (st : ReconnectState) (now : Int) (sid : String)
    (last : Int) (hc : st.cooldown sid = some last) (hl : last ≠ 0)
    (hn : now - last < RECONNECT_COOLDOWN_MS) :
    reconnectGate st now sid = false := by
  unfold reconnectGate
  rw [hc]
  have h1 : numTruthy last = true := by simp [numTruthy, hl]
  have h2 : decide (now - last < RECONNECT_COOLDOWN_MS) = true := by
    simpa using hn
  simp [h1, h2]

/-- C2 (amended): the cooldown map records the moment an attempt is
issued and is kept on both outcomes — success does not clear it.  So
after any attempt issued at `t0` (truthy), whether it succeeded or
failed, the reconnect effect issues no new attempt for that session while
`now - t0 < RECONNECT_COOLDOWN_MS`. -/
theorem C2_attempt_keeps_cooldown (adopted : Option String) (t0 now : Int)
    (st : ReconnectState) (s : SessionRecord) (outcome : ConnectOutcome)
    (hissued : (issueReconnect adopted t0 st s).2 = true)
    (ht0 : t0 ≠ 0) (hnow : now - t0 < RECONNECT_COOLDOWN_MS) :
    (attemptCycle adopted t0 st s outcome).1.cooldown s.id = some t0 ∧
    (issueReconnect adopted now (attemptCycle adopted t0 st s outcome).1 s).2
      = false := by
  have hcond : (reconnectEligible adopted t0 s && reconnectGate st t0 s.id)
      = true := by
    rw [← issueReconnect_spec adopted t0 st s]; exact hissued
  have hissue : issueReconnect adopted t0 st s =
      ({ inflight := s.id :: st.inflight,
         cooldown := fun k => if k == s.id then some t0 else st.cooldown k },
        true) := by
    simp [issueReconnect, hcond]
  have hcool : (attemptCycle adopted t0 st s outcome).1.cooldown s.id
      = some t0 := by
    unfold attemptCycle
    rw [hissue]
    cases outcome <;> simp [settleReconnect]
  refine ⟨hcool, ?_⟩
  have hgate : reconnectGate (attemptCycle adopted t0 st s outcome).1 now s.id
      = false :=
    reconnectGate_cold _ now s.id t0 hcool ht0 hnow
  rw [issueReconnect_spec, hgate, Bool.and_false]

/-- C2 (witness): `C2_attempt_keeps_cooldown` for a fresh state, an
attempt at time 100 that fails, re-evaluated at time 200. -/
theorem C2_attempt_keeps_cooldown_witness :
    (attemptCycle (some "s1") 100 reconnectInit exS1 .failure).1.cooldown
        exS1.id = some 100 ∧
    (issueReconnect (some "s1") 200
      (attemptCycle (some "s1") 100 reconnectInit exS1 .failure).1 exS1).2
      = false :=
  C2_attempt_keeps_cooldown (some "s1") 100 200 reconnectInit exS1 .failure
    (by decide) (by decide) (by decide)

/-- C2 (counterexample): a *successful* connect attempt at time 100 does
not clear the cooldown: the cooldown entry still records the attempt, the
session is still eligible at time 200, yet no new attempt is issued —
contradicting "after a `connectSession` attempt succeeds, the cooldown
for that session is cleared, so a new attempt may be issued
immediately". -/
theorem C2_counterexample :
    (attemptCycle (some "s1") 100 reconnectInit exS1 .success).2 = true ∧
    (attemptCycle (some "s1") 100 reconnectInit exS1
        .success).1.cooldown "s1" = some 100 ∧
    reconnectEligible (some "s1") 200 exS1 = true ∧
    (issueReconnect (some "s1") 200
      (attemptCycle (some "s1") 100 reconnectInit exS1 .success).1 exS1).2
      = false :=
  ⟨rfl, rfl, rfl, rfl⟩

/-- C3: the reconnect effect issues a `connectSession` attempt for a
session only if its status is `active`, its `remoteSignerPubkey` is set,
its `lastError` is nil, and either it is the currently adopted session or
its `lastSeenAt` is non-nil and within the 60-second recency window of
`now`. -/
theorem C3_reconnect_only_if_eligible (adopted : Option String) (now : Int)
    (st : ReconnectState) (s : SessionRecord)
    (h : (issueReconnect adopted now st s).2 = true) :
    s.status = "active" ∧ s.remoteSignerPubkey.isSome = true ∧
    s.lastError = none ∧
    (adopted = some s.id ∨
      ∃ t, s.lastSeenAt = some t ∧ now - t ≤ RECONNECT_COOLDOWN_MS) := by
  have hcond : (reconnectEligible adopted now s && reconnectGate st now s.id)
      = true := by
    rw [← issueReconnect_spec adopted now st s]; exact h
  have helig : reconnectEligible adopted now s = true :=
    (Bool.and_eq_true_iff.mp hcond).1
  unfold reconnectEligible at helig
  simp only [Bool.and_eq_true, Bool.or_eq_true, beq_iff_eq,
    Option.isNone_iff_eq_none] at helig
  obtain ⟨⟨⟨hstat, hrs⟩, herr⟩, hor⟩ := helig
  refine ⟨hstat, hrs, herr, ?_⟩
  cases hor with
  | inl h1 => exact Or.inl h1
  | inr h2 =>
    refine Or.inr ?_
    cases hls : s.lastSeenAt with
    | none => rw [hls] at h2; exact absurd h2 (by simp)
    | some t =>
      rw [hls] at h2
      exact ⟨t, rfl, by simpa using h2⟩

/-- C3 (witness): `C3_reconnect_only_if_eligible` for the adopted session
`exS1` at time 0 from a fresh state, where an attempt is issued. -/
theorem C3_reconnect_only_if_eligible_witness :
    exS1.status = "active" ∧ exS1.remoteSignerPubkey.isSome = true ∧
    exS1.lastError = none ∧
    ((some "s1" : Option String) = some exS1.id ∨
      ∃ t, exS1.lastSeenAt = some t ∧ (0 : Int) - t ≤ RECONNECT_COOLDOWN_MS) :=
  C3_reconnect_only_if_eligible (some "s1") 0 reconnectInit exS1 (by decide)

/-! ## Round trip of the snapshot JSON encoding -/

/-- Optional strings round-trip. -/
theorem decodeOptStr_encodeOptStr (x : Option String) :
    decodeOptStr (encodeOptStr x) = some x := by cases x <;> rfl

/-- Optional timestamps round-trip. -/
theorem decodeOptInt_encodeOptInt (x : Option Int) :
    decodeOptInt (encodeOptInt x) = some x := by cases x <;> rfl

/-- A `SessionRecord` round-trips through the JSON encoding. -/
theorem decodeRecord_encodeRecord (r : SessionRecord) :
    decodeRecord (encodeRecord r) = some r := by
  cases r with
  | mk id status rsp up lkm le lsa ca ua =>
    cases rsp <;> cases up <;> cases le <;> cases lsa <;> rfl

/-- Decoding loop over an encoded list, with the accumulator of
`List.mapM.loop` generalized. -/
theorem mapM_loop_decode (l : List SessionRecord) (acc : List SessionRecord) :
    List.mapM.loop decodeRecord (l.map encodeRecord) acc
      = some (acc.reverse ++ l) := by
  induction l generalizing acc with
  | nil => simp [List.mapM.loop]
  | cons a t ih =>
    simp [List.mapM.loop, decodeRecord_encodeRecord a, ih]

/-- A list of records round-trips element-wise. -/
theorem mapM_decodeRecord_encodeRecord (l : List SessionRecord) :
    (l.map encodeRecord).mapM decodeRecord = some l := by
  simpa using mapM_loop_decode l []

/-- A `SessionSnapshot` round-trips through the JSON encoding. -/
theorem decodeSnapshot_encodeSnapshot (s : SessionSnapshot) :
    decodeSnapshot (encodeSnapshot s) = some s := by
  cases s with
  | mk sessions act =>
    have h := mapM_loop_decode sessions []
    simp [encodeSnapshot, decodeSnapshot, decodeOptStr_encodeOptStr,
      List.mapM] at h ⊢
    simp [h]

/-- Cloning is the identity on snapshot values. -/
theorem cloneSnapshot_eq (s : SessionSnapshot) : cloneSnapshot s = s := by
  simp [cloneSnapshot, decodeSnapshot_encodeSnapshot]

/-- C9: saving a snapshot to the in-memory adapter and loading returns a
snapshot equal to it by value (identical sessions list and
`activeSessionId`): the snapshot round-trips exactly. -/
theorem C9_memory_roundtrip (st : Option SessionSnapshot)
    (s : SessionSnapshot) : memLoad (memSave st s) = some s := by
  simp [memSave, memLoad, cloneSnapshot_eq]

/-! ## Shape validation and fault absorption of the adapters -/

/-- Bind on a resolved promise. -/
theorem exc_bind_ok {α β : Type} (a : α) (f : α → Except JsError β) :
    (Except.ok a >>= f : Except JsError β) = f a := rfl

/-- Pure is resolution. -/
theorem exc_pure {α : Type} (a : α) :
    (pure a : Except JsError α) = .ok a := rfl

/-- Map on a resolved promise. -/
theorem exc_map_ok {α β : Type} (a : α) (f : α → β) :
    (Except.ok a : Except JsError α).map f = .ok (f a) := rfl

/-- Bind on a rejected promise. -/
theorem exc_bind_error {α β : Type} (e : JsError)
    (f : α → Except JsError β) :
    (Except.error e >>= f : Except JsError β) = .error e := rfl

/-- C8: a persisted payload whose parsed value is not an object, or whose
`sessions` field is not a list, loads as absent (`null`), so hydration
treats it as if nothing was stored. -/
theorem C8_load_rejects_malformed (w : Bool) (raw : String)
    (parse : String → Except JsError JsValue) (v : JsValue)
    (hp : parse raw = .ok v)
    (hmal : jsIsObject v = false ∨ jsIsArray (jsGet v "sessions") = false) :
    lsLoad w (.ok (some raw)) parse = .ok Option.none := by
  cases w with
  | false => rfl
  | true =>
    have hbody : lsLoadBody (.ok (some raw)) parse = .ok Option.none := by
      by_cases hraw : raw = ""
      · subst hraw
        simp [lsLoadBody, exc_bind_ok, exc_pure]
      · cases v with
        | obj fields =>
          rcases hmal with h | h
          · simp [jsIsObject] at h
          · simp [lsLoadBody, hraw, hp, exc_bind_ok, exc_pure, jsFalsy,
              jsTypeofObject, h]
        | arr elems =>
          simp [lsLoadBody, hraw, hp, exc_bind_ok, exc_pure, jsFalsy,
            jsTypeofObject, jsGet, jsIsArray]
        | undefined =>
          simp [lsLoadBody, hraw, hp, exc_bind_ok, exc_pure, jsFalsy]
        | null =>
          simp [lsLoadBody, hraw, hp, exc_bind_ok, exc_pure, jsFalsy]
        | bool b =>
          simp [lsLoadBody, hraw, hp, exc_bind_ok, exc_pure, jsFalsy,
            jsTypeofObject]
        | num n =>
          simp [lsLoadBody, hraw, hp, exc_bind_ok, exc_pure, jsFalsy,
            jsTypeofObject]
        | str s =>
          simp [lsLoadBody, hraw, hp, exc_bind_ok, exc_pure, jsFalsy,
            jsTypeofObject]
    simp [lsLoad, tryCatch, hbody]

/-- C8 (witness): a payload parsing to the number 5 — not an object —
loads as absent. -/
theorem C8_load_rejects_malformed_witness :
    lsLoad true (.ok (some "5")) (fun _ => .ok (.num 5)) = .ok Option.none :=
  C8_load_rejects_malformed true "5" (fun _ => .ok (.num 5)) (.num 5) rfl
    (Or.inl rfl)

/-- Resolution of `tryCatch` when every handler branch resolves. -/
theorem exceptOk_tryCatch {α : Type} (body : Except JsError α)
    (handler : JsError → Except JsError α)
    (h : ∀ e, exceptOk (handler e) = true) :
    exceptOk (tryCatch body handler) = true := by
  cases body with
  | ok a => rfl
  | error e => exact h e

/-- Mapping preserves resolution. -/
theorem exceptOk_map {α β : Type} (x : Except JsError α) (f : α → β) :
    exceptOk (x.map f) = exceptOk x := by cases x <;> rfl

/-! ## The quota cooldown of `LocalStorageAdapter.save` -/

/-- Quota-exceeded `DOMException` used by the cooldown scenarios. -/
def quotaErr : JsError :=
  { isDomException := true, name := "QuotaExceededError", code := 22 }

/-- Handler of the `catch` always resolves. -/
theorem lsSaveCatch_ok (st : LsState) (now : Int) (e : JsError) :
    ∃ st2, lsSaveCatch st now e = .ok st2 := by
  unfold lsSaveCatch
  split
  · exact ⟨_, rfl⟩
  · exact ⟨_, rfl⟩

/-- A save from a state the unblock step leaves unblocked always attempts
the write. -/
theorem lsSave_unblocked_attempts (st : LsState) (now : Int)
    (w : SetItemResult) (hb : (lsUnblock st now).blocked = false) :
    ∃ st2, lsSave true st now w = .ok (st2, true) := by
  cases w with
  | ok =>
    refine ⟨{ lsUnblock st now with
              lastBlockedTime :=
                if (lsUnblock st now).lastBlockedTime > 0 then 0
                else (lsUnblock st now).lastBlockedTime }, ?_⟩
    simp [lsSave, hb, lsSaveTryBody, tryCatch, exc_map_ok]
  | err e =>
    obtain ⟨st2, h2⟩ := lsSaveCatch_ok (lsUnblock st now) now e
    exact ⟨st2, by simp [lsSave, hb, lsSaveTryBody, tryCatch, h2, exc_map_ok]⟩

/-- Generic storage failure used by the fault-absorption witness. -/
def failedStep : JsError :=
  { isDomException := false, name := "Error", code := 0 }

/-- IndexedDB environment whose open step fails. -/
def envFail : IdbEnv :=
  { openResult := .error failedStep, getResult := .ok Option.none,
    putResult := .ok (), txResult := .ok () }

/-- C6: `load` and `save` of the storage adapters never reject, and every
underlying storage failure is absorbed: a throwing `getItem`, a failing
`JSON.parse` or a failing IndexedDB step makes `load` resolve to absent
(`null`), and a throwing `setItem` or a failing IndexedDB step still lets
`save` resolve normally. -/
theorem C6_adapters_absorb_faults (w idb : Bool)
    (getItem : Except JsError (Option String))
    (parse : String → Except JsError JsValue) (raw : String)
    (st : LsState) (now : Int) (write : SetItemResult)
    (env env2 : IdbEnv) (e ep ew : JsError) :
    (exceptOk (lsLoad w getItem parse) = true ∧
      exceptOk (lsSave w st now write) = true ∧
      exceptOk (idbLoad idb env) = true ∧
      exceptOk (idbSave idb env2) = true) ∧
    lsLoad w (.error e) parse = .ok Option.none ∧
    (parse raw = .error ep →
      lsLoad w (.ok (some raw)) parse = .ok Option.none) ∧
    (exceptOk env.openResult = false ∨ exceptOk env.getResult = false ∨
        exceptOk env.txResult = false →
      idbLoad idb env = .ok Option.none) ∧
    (exceptOk env2.openResult = false ∨ exceptOk env2.putResult = false ∨
        exceptOk env2.txResult = false →
      idbSave idb env2 = .ok ()) ∧
    ∃ r, lsSave w st now (.err ew) = .ok r := by
  refine ⟨⟨?_, ?_, ?_, ?_⟩, ?_, ?_, ?_, ?_, ?_⟩
  · cases w with
    | false => rfl
    | true => exact exceptOk_tryCatch _ _ fun e0 => rfl
  · cases w with
    | false => rfl
    | true =>
      by_cases hb : (lsUnblock st now).blocked
      · simp [lsSave, hb, exceptOk]
      · rw [Bool.not_eq_true] at hb
        have hh : ∀ e0, exceptOk (lsSaveCatch (lsUnblock st now) now e0)
            = true := by
          intro e0
          unfold lsSaveCatch
          split <;> rfl
        simp only [lsSave, hb, Bool.not_true, Bool.false_eq_true, if_false,
          exceptOk_map]
        exact exceptOk_tryCatch _ _ hh
  · cases idb with
    | false => rfl
    | true => exact exceptOk_tryCatch _ _ fun e0 => rfl
  · cases idb with
    | false => rfl
    | true => exact exceptOk_tryCatch _ _ fun e0 => rfl
  · cases w with
    | false => rfl
    | true => rfl
  · intro hpf
    cases w with
    | false => rfl
    | true =>
      by_cases hraw : raw = ""
      · subst hraw
        simp [lsLoad, lsLoadBody, tryCatch, exc_bind_ok, exc_pure]
      · simp [lsLoad, lsLoadBody, tryCatch, exc_bind_ok, exc_bind_error,
          hpf, hraw]
  · intro h
    cases idb with
    | false => rfl
    | true =>
      cases ho : env.openResult with
      | error e0 =>
        simp [idbLoad, idbLoadBody, ho, exc_bind_error, tryCatch]
      | ok u =>
        cases hg : env.getResult with
        | error e1 =>
          simp [idbLoad, idbLoadBody, ho, hg, exc_bind_ok, exc_bind_error,
            tryCatch]
        | ok rec =>
          cases ht : env.txResult with
          | error e2 =>
            simp [idbLoad, idbLoadBody, ho, hg, ht, exc_bind_ok,
              exc_bind_error, tryCatch]
          | ok u2 =>
            rw [ho, hg, ht] at h
            simp [exceptOk] at h
  · intro h
    cases idb with
    | false => rfl
    | true =>
      cases ho : env2.openResult with
      | error e0 =>
        simp [idbSave, idbSaveBody, ho, exc_bind_error, tryCatch]
      | ok u =>
        cases hg : env2.putResult with
        | error e1 =>
          simp [idbSave, idbSaveBody, ho, hg, exc_bind_ok, exc_bind_error,
            tryCatch]
        | ok u1 =>
          cases ht : env2.txResult with
          | error e2 =>
            simp [idbSave, idbSaveBody, ho, hg, ht, exc_bind_ok,
              exc_bind_error, tryCatch]
          | ok u2 =>
            rw [ho, hg, ht] at h
            simp [exceptOk] at h
  · cases w with
    | false => exact ⟨(st, false), rfl⟩
    | true =>
      by_cases hb : (lsUnblock st now).blocked
      · exact ⟨(lsUnblock st now, false), by simp [lsSave, hb]⟩
      · rw [Bool.not_eq_true] at hb
        obtain ⟨st2, h2⟩ := lsSave_unblocked_attempts st now (.err ew) hb
        exact ⟨(st2, true), h2⟩

/-- C6 (witness): `C6_adapters_absorb_faults` at a throwing `getItem`, a
failing parse, an IndexedDB environment whose open step fails, and a
throwing `setItem`. -/
theorem C6_adapters_absorb_faults_witness :
    lsLoad true (.error failedStep) (fun _ => .error failedStep)
      = .ok Option.none ∧
    lsLoad true (.ok (some "x")) (fun _ => .error failedStep)
      = .ok Option.none ∧
    idbLoad true envFail = .ok Option.none ∧
    idbSave true envFail = .ok () ∧
    ∃ r, lsSave true { blocked := false, lastBlockedTime := 0 } 0
      (.err failedStep) = .ok r := by
  have h := C6_adapters_absorb_faults true true (.error failedStep)
    (fun _ => .error failedStep) "x"
    { blocked := false, lastBlockedTime := 0 } 0 .ok envFail envFail
    failedStep failedStep failedStep
  exact ⟨h.2.1, h.2.2.1 rfl, h.2.2.2.1 (Or.inl rfl),
    h.2.2.2.2.1 (Or.inl rfl), h.2.2.2.2.2⟩

/-- C5 (amended): a quota failure at `t0` blocks the adapter; every save
while `now - t0 ≤ RETRY_INTERVAL_MS` — including at exactly 60 seconds —
returns without attempting the write, and a save issued strictly more
than 60 seconds after the failure attempts the write again. -/
theorem C5_quota_cooldown (st : LsState) (t0 now : Int) (e : JsError)
    (w : SetItemResult) (hb : st.blocked = false)
    (hq : isQuotaExceededError e = true) :
    lsSave true st t0 (.err e)
      = .ok ({ blocked := true, lastBlockedTime := t0 }, true) ∧
    (now - t0 ≤ RETRY_INTERVAL_MS →
      lsSave true { blocked := true, lastBlockedTime := t0 } now w
        = .ok ({ blocked := true, lastBlockedTime := t0 }, false)) ∧
    (RETRY_INTERVAL_MS < now - t0 →
      ∃ st2, lsSave true { blocked := true, lastBlockedTime := t0 } now w
        = .ok (st2, true)) := by
  refine ⟨?_, ?_, ?_⟩
  · have hu : lsUnblock st t0 = st := by simp [lsUnblock, hb]
    simp [lsSave, hu, hb, lsSaveTryBody, tryCatch, lsSaveCatch, hq, exc_map_ok]
  · intro h
    have h' : ¬(RETRY_INTERVAL_MS < now - t0) := not_lt.mpr h
    have hu : lsUnblock { blocked := true, lastBlockedTime := t0 } now
        = { blocked := true, lastBlockedTime := t0 } := by
      simp [lsUnblock, h']
    simp [lsSave, hu]
  · intro h
    apply lsSave_unblocked_attempts
    simp [lsUnblock, h]

/-- C5 (witness): `C5_quota_cooldown` with the quota failure at time
1000, the skipped save at time 61000 and the retried save at 61001. -/
theorem C5_quota_cooldown_witness :
    lsSave true { blocked := false, lastBlockedTime := 0 } 1000
        (.err quotaErr)
      = .ok ({ blocked := true, lastBlockedTime := 1000 }, true) ∧
    lsSave true { blocked := true, lastBlockedTime := 1000 } 61000 .ok
      = .ok ({ blocked := true, lastBlockedTime := 1000 }, false) ∧
    ∃ st2, lsSave true { blocked := true, lastBlockedTime := 1000 }
        61001 .ok = .ok (st2, true) := by
  refine ⟨(C5_quota_cooldown ⟨false, 0⟩ 1000 61000 quotaErr .ok rfl
      (by decide)).1,
    (C5_quota_cooldown ⟨false, 0⟩ 1000 61000 quotaErr .ok rfl
      (by decide)).2.1 (by decide),
    (C5_quota_cooldown ⟨false, 0⟩ 1000 61001 quotaErr .ok rfl
      (by decide)).2.2 (by decide)⟩

/-- C5 (counterexample): a save issued exactly 60 seconds after the quota
failure (failure at 1000, save at 61000) is still skipped — the write is
not attempted — though the claim says a save issued 60 seconds or more
after the failure attempts the write again. -/
theorem C5_counterexample :
    lsSave true { blocked := false, lastBlockedTime := 0 } 1000
        (.err quotaErr)
      = .ok ({ blocked := true, lastBlockedTime := 1000 }, true) ∧
    lsSave true { blocked := true, lastBlockedTime := 1000 } 61000 .ok
      = .ok ({ blocked := true, lastBlockedTime := 1000 }, false) := by
  constructor <;> rfl

/-- C10: from an unblocked adapter, a save that fails with a non-quota
error leaves the adapter unblocked and unchanged — the write was
attempted and the very next save attempts the write again. -/
theorem C10_only_quota_blocks (st : LsState) (now now2 : Int) (e : JsError)
    (w : SetItemResult) (hb : st.blocked = false)
    (hq : isQuotaExceededError e = false) :
    lsSave true st now (.err e) = .ok (st, true) ∧
    ∃ st2, lsSave true st now2 w = .ok (st2, true) := by
  have hu : lsUnblock st now = st := by simp [lsUnblock, hb]
  have hu2 : lsUnblock st now2 = st := by simp [lsUnblock, hb]
  constructor
  · simp [lsSave, hu, hb, lsSaveTryBody, tryCatch, lsSaveCatch, hq, exc_map_ok]
  · apply lsSave_unblocked_attempts
    rw [hu2]
    exact hb

/-- C10 (witness): `C10_only_quota_blocks` for a `SecurityError` (a
`DOMException` that is not a quota error) at time 5, retried at time 6. -/
theorem C10_only_quota_blocks_witness :
    lsSave true { blocked := false, lastBlockedTime := 0 } 5
        (.err { isDomException := true, name := "SecurityError",
                code := 18 })
      = .ok ({ blocked := false, lastBlockedTime := 0 }, true) ∧
    ∃ st2, lsSave true { blocked := false, lastBlockedTime := 0 } 6 .ok
      = .ok (st2, true) :=
  C10_only_quota_blocks ⟨false, 0⟩ 5 6
    { isDomException := true, name := "SecurityError", code := 18 }
    .ok rfl (by decide)

/-! ## Adoption swap -/

/-- C4: the adoption effect keeps at most one adopted session: a
candidate equal to the current adopted id makes no adoption call; an
absent candidate with a session adopted clears the signer; a different
candidate swaps to it; and re-evaluating on the same snapshot after any
of these is a no-op, so each swap or clear happens exactly once. -/
theorem C4_adoption_swap (snap : SessionSnapshot) (current : Option String) :
    ((adoptionCandidate snap).map SessionRecord.id = current →
      adoptionStep snap current = (current, AdoptAction.keep)) ∧
    (adoptionCandidate snap = Option.none → current ≠ Option.none →
      adoptionStep snap current = (Option.none, AdoptAction.clear)) ∧
    (∀ c, adoptionCandidate snap = some c → some c.id ≠ current →
      adoptionStep snap current = (some c.id, AdoptAction.adopt c.id)) ∧
    adoptionStep snap (adoptionStep snap current).1
      = ((adoptionStep snap current).1, AdoptAction.keep) := by
  cases hcand : adoptionCandidate snap with
  | none =>
    have hstep : ∀ cur : Option String, adoptionStep snap cur
        = (Option.none,
            match cur with
            | Option.none => AdoptAction.keep
            | some _ => AdoptAction.clear) := by
      intro cur
      unfold adoptionStep
      rw [hcand]
      cases cur <;> rfl
    refine ⟨?_, ?_, ?_, ?_⟩
    · intro h
      simp only [Option.map_none'] at h
      subst h
      exact hstep Option.none
    · intro _ hne
      cases current with
      | none => exact absurd rfl hne
      | some cur => exact hstep (some cur)
    · intro c hc _
      simp at hc
    · rw [hstep current]
      exact hstep Option.none
  | some c =>
    have hstep : ∀ cur : Option String, adoptionStep snap cur
        = if some c.id == cur then (cur, AdoptAction.keep)
          else (some c.id, AdoptAction.adopt c.id) := by
      intro cur
      unfold adoptionStep
      rw [hcand]
    refine ⟨?_, ?_, ?_, ?_⟩
    · intro h
      simp only [Option.map_some'] at h
      simp [hstep current, h]
    · intro h
      simp at h
    · intro c' hc' hne
      obtain rfl : c = c' := Option.some.inj hc'
      simp [hstep current, hne]
    · by_cases hcur : some c.id = current
      · have h1 : adoptionStep snap current = (current, AdoptAction.keep) := by
          simp [hstep current, hcur]
        rw [h1]
        exact h1
      · have h1 : adoptionStep snap current
            = (some c.id, AdoptAction.adopt c.id) := by
          simp [hstep current, hcur]
        rw [h1]
        simp [hstep (some c.id)]

/-- C4 (witness): `C4_adoption_swap` exercised on `exSnap` (candidate
`exS1`) for the no-op and swap cases and on `emptySnap` for the clear
case. -/
theorem C4_adoption_swap_witness :
    adoptionStep exSnap (some "s1") = (some "s1", AdoptAction.keep) ∧
    adoptionStep exSnap (some "zz")
      = (some exS1.id, AdoptAction.adopt exS1.id) ∧
    adoptionStep emptySnap (some "s1")
      = (Option.none, AdoptAction.clear) :=
  ⟨(C4_adoption_swap exSnap (some "s1")).1 (by decide),
    (C4_adoption_swap exSnap (some "zz")).2.2.1 exS1 (by decide) (by decide),
    (C4_adoption_swap emptySnap (some "s1")).2.1 (by decide) (by decide)⟩

/-! ## The placeholder transport -/

/-- C7: with no transport configured, `publish` rejects immediately (it
does not hang) with the configuration error, and `subscribe` never
throws: it returns an unsubscribe handle that changes no listener
registry. -/
theorem C7_missing_transport (recipient envelope own : String)
    (handler : String → Unit) (listeners : List String) :
    missingTransportPublish recipient envelope
        = .rejects "NIP-46 transport is not configured" ∧
    missingTransportPublish recipient envelope ≠ .hangs ∧
    ∃ h, missingTransportSubscribe own handler = .ok h ∧
      h listeners = listeners := by
  refine ⟨rfl, ?_, fun ls => ls, rfl, rfl⟩
  intro hx
  exact AsyncOutcome.noConfusion hx

end Bloom
